import Mathlib

/-!
Shallow embedding of the template-driven scraping engine of this repository
(the Express + Puppeteer server: `/scrape` handler, in-page extraction
closures `extractText` / `extractAttribute`, item selection, pagination
loop, per-template CSV persistence).

Modelling conventions:
* A rendered document is a tree of element and text nodes (`Node`).
* JavaScript regular expressions are abstracted by a compilation function
  `rc : String → Option (String → Bool)`: `rc pat = none` models
  `new RegExp(pat, 'i')` throwing on an invalid pattern, and
  `rc pat = some test` models a compiled case-insensitive `test`.
* `getAttribute` returns `Option String`: `none` is JavaScript `null`
  (attribute absent), `some s` an attribute string.
* A JS value that may be a string or `null` is `Option String`.
* Navigation (`page.goto`) is a function `fetch : String → Option Node`;
  `none` models a navigation failure (goto throwing).
* A thrown exception escaping `page.evaluate` or the handler body is
  `Except.error ()`, caught by the handler's outer `catch` (HTTP 500).
-/

deriving instance DecidableEq for Except

namespace Scraper

/-! String primitives.  The built-in `String.trim` / `String.splitOn` are
implemented with well-founded byte-position loops that the kernel cannot
evaluate, so the JavaScript string operations the engine uses are given
structural char-list implementations here. -/

/-- JavaScript `String.prototype.trim`. -/
def trimString (s : String) : String :=
  String.mk (((s.data.dropWhile Char.isWhitespace).reverse.dropWhile
    Char.isWhitespace).reverse)

/-- Split a char list on a single separator character. -/
def splitOnChar (sep : Char) : List Char → List (List Char)
  | [] => [[]]
  | c :: cs =>
    let r := splitOnChar sep cs
    if c = sep then [] :: r
    else match r with
      | [] => [[c]]
      | g :: gs => (c :: g) :: gs

/-- Split a URL at the first occurrence of the literal `://`, giving the
scheme part and the remainder, or `none` when no `://` occurs. -/
def splitScheme : List Char → Option (List Char × List Char)
  | [] => none
  | c :: cs =>
    if List.isPrefixOf [':', '/', '/'] (c :: cs) then some ([], (c :: cs).drop 3)
    else match splitScheme cs with
      | none => none
      | some (a, b) => some (c :: a, b)

/-- Remove the first occurrence of a character: JavaScript
`String.prototype.replace` with a one-character string pattern and an empty
replacement, as in `selector.replace('.', '')`. -/
def removeFirstChar (ch : Char) : List Char → List Char
  | [] => []
  | c :: cs => if c = ch then cs else c :: removeFirstChar ch cs

/-- `selector.replace(pat, '')` for the engine's one-character patterns. -/
def replaceFirst (s : String) (ch : Char) : String :=
  String.mk (removeFirstChar ch s.data)

-- Document tree: element nodes with a tag, attributes and children, and
-- text nodes.  A mutual inductive keeps all recursions structural.
mutual

inductive Node where
  | text (s : String)
  | elem (tag : String) (attrs : List (String × String)) (children : NodeList)

inductive NodeList where
  | nil
  | cons (head : Node) (tail : NodeList)

end

/-- `Element.getAttribute`: `none` models JavaScript `null`. -/
def getAttr (n : Node) (a : String) : Option String :=
  match n with
  | Node.text _ => none
  | Node.elem _ attrs _ => (attrs.find? (fun p => p.1 == a)).map (fun p => p.2)

def tagOf (n : Node) : Option String :=
  match n with
  | Node.text _ => none
  | Node.elem t _ _ => some t

/-- membership of a class token in the `class` attribute (space separated). -/
def hasClass (n : Node) (c : String) : Bool :=
  match getAttr n "class" with
  | none => false
  | some s => (splitOnChar ' ' s.data).contains c.data

mutual

def textContent : Node → String
  | Node.text s => s
  | Node.elem _ _ cs => textContentL cs

def textContentL : NodeList → String
  | NodeList.nil => ""
  | NodeList.cons n ns => textContent n ++ textContentL ns

end

-- `elemDescendants`: all element descendants of a node in document
-- (depth-first) order, excluding the node itself — the enumeration behind
-- `querySelectorAll` on an element.  `textContent` is `node.textContent`.
mutual

def elemDescendants : Node → List Node
  | Node.text _ => []
  | Node.elem _ _ cs => elemDescendantsL cs

def elemDescendantsL : NodeList → List Node
  | NodeList.nil => []
  | NodeList.cons (Node.text _) ns => elemDescendantsL ns
  | NodeList.cons (Node.elem t a cs) ns =>
      Node.elem t a cs :: (elemDescendantsL cs ++ elemDescendantsL ns)

end

/-- All elements of the document, root element included: the enumeration
behind `document.querySelectorAll`. -/
def allElems (doc : Node) : List Node :=
  match doc with
  | Node.text _ => []
  | Node.elem t a cs => Node.elem t a cs :: elemDescendantsL cs

/-- Simplified CSS matching covering the selector shapes the engine is used
with: `#id`, `.class`, `tag`, `tag.class`. -/
def cssMatches (sel : String) (n : Node) : Bool :=
  match sel.data with
  | '#' :: rest => getAttr n "id" == some (String.mk rest)
  | '.' :: rest => hasClass n (String.mk rest)
  | other =>
    match splitOnChar '.' other with
    | [t] => tagOf n == some (String.mk t)
    | [t, c] => tagOf n == some (String.mk t) && hasClass n (String.mk c)
    | _ => false

/-- `element.querySelector`: first matching descendant. -/
def elemQuerySelector (root : Node) (sel : String) : Option Node :=
  (elemDescendants root).find? (cssMatches sel)

/-- `element.getElementsByClassName`: all descendants carrying the class. -/
def elemGetByClassName (root : Node) (c : String) : List Node :=
  (elemDescendants root).filter (fun n => hasClass n c)

/-- `document.querySelector` (used by `page.$`): whole document scope. -/
def docQuerySelector (doc : Node) (sel : String) : Option Node :=
  (allElems doc).find? (cssMatches sel)

/-- `document.querySelectorAll`: whole document scope. -/
def docQuerySelectorAll (doc : Node) (sel : String) : List Node :=
  (allElems doc).filter (cssMatches sel)

/-- `document.getElementsByClassName`: whole document scope. -/
def docGetByClassName (doc : Node) (c : String) : List Node :=
  (allElems doc).filter (fun n => hasClass n c)

/-- `new URL(href, base).href`, simplified WHATWG resolution: an empty
href resolves to the base, an absolute href stands on its own, a
root-relative href keeps the base's scheme and host, and any other href
replaces the base's last path segment. -/
def resolveUrl (href base : String) : String :=
  if href = "" then base
  else if (splitScheme href.data).isSome then href
  else
    match href.data with
    | '/' :: _ =>
      match splitScheme base.data with
      | some (scheme, rest) =>
        String.mk scheme ++ "://" ++ String.mk (rest.takeWhile (fun c => c ≠ '/')) ++ href
      | none => href
    | _ =>
      String.mk ((base.data.reverse.dropWhile (fun c => c ≠ '/')).reverse) ++ href

/-- `m || 'css'`: an absent or empty method string defaults to `css`. -/
def dfltMethod (m : String) : String :=
  if m = "" then "css" else m

/-! The template model.  Fields that the JavaScript templates may omit are
`Option`s; a method string of `""` stands for an absent `method` property
(both are falsy, so both default to `'css'`). -/

/-- One field of a template: `{ type, selector, method, attribute }`.
`attrName` embeds the JSON property `attribute` (a Lean keyword). -/
structure FieldSpec where
  type : String
  selector : String
  method : String
  attrName : String
deriving DecidableEq

/-- `template.nextPage`: `{ selector, method }`. -/
structure LinkSpec where
  selector : String
  method : String
deriving DecidableEq

/-- One template of a `/scrape` request. -/
structure Template where
  itemSelector : Option String
  itemSelectorMethod : String
  fields : Option (List (String × FieldSpec))
  nextPage : Option LinkSpec
  paginationLimit : Option Int
deriving DecidableEq

/-- One extracted item: field name to JS value (`none` is `null`). -/
abbrev Record := List (String × Option String)

/-- Compiled-regex abstraction: `none` models `new RegExp(pat, 'i')`
throwing on an invalid pattern, `some test` its case-insensitive `test`. -/
abbrev RegexCompiler := String → Option (String → Bool)

/-- Selector resolution shared verbatim by `extractText` and
`extractAttribute` (the two closures duplicate these lines): dispatch on
the method string, scoped to the item element; an unknown method leaves
`el` undefined.  A regex that fails to compile throws inside the closure's
`try`, which the `catch` turns into the no-node result. -/
def resolveField (rc : RegexCompiler) (element : Node) (selector method : String) :
    Option Node :=
  if method = "css" then elemQuerySelector element selector
  else if method = "class" then
    (elemGetByClassName element (replaceFirst selector '.')).head?
  else if method = "id" then
    elemQuerySelector element ("#" ++ replaceFirst selector '#')
  else if method = "regex" then
    match rc selector with
    | some test => (elemDescendants element).find? (fun el => test (trimString (textContent el)))
    | none => none
  else none

/-- `extractText`: trimmed text content of the resolved node, `''` if
unresolved (or on a caught internal error). -/
def extractText (rc : RegexCompiler) (element : Node) (selector method : String) :
    String :=
  match resolveField rc element selector method with
  | some el => trimString (textContent el)
  | none => ""

/-- `extractAttribute`: `el ? el.getAttribute(attribute) : ''` — note that
a resolved node lacking the attribute yields `null` (`none`), while an
unresolved selector yields `''`. -/
def extractAttribute (rc : RegexCompiler) (element : Node)
    (selector attrName method : String) : Option String :=
  match resolveField rc element selector method with
  | some el => getAttr el attrName
  | none => some ""

/-- Value of one field of one item: `value = ''` then the `type` dispatch,
with the method defaulted by `fieldInfo.method || 'css'`. -/
def fieldValue (rc : RegexCompiler) (item : Node) (f : FieldSpec) : Option String :=
  if f.type = "text" then
    some (extractText rc item f.selector (dfltMethod f.method))
  else if f.type = "attribute" then
    extractAttribute rc item f.selector f.attrName (dfltMethod f.method)
  else some ""

/-- One record: every declared field, in declaration order
(`for (let field in template.fields)`; a missing `fields` iterates over
nothing). -/
def extractRecord (rc : RegexCompiler) (fields : List (String × FieldSpec))
    (item : Node) : Record :=
  fields.map (fun nf => (nf.1, fieldValue rc item nf.2))

/-- Item selection inside `page.evaluate`: dispatch on
`template.itemSelectorMethod || 'css'` against the whole document.
`document.querySelectorAll(undefined)` coerces the selector to the string
`"undefined"`; the other branches dereference `template.itemSelector`
first, so a missing selector throws a `TypeError` there (`Except.error`),
as does an invalid regex (`new RegExp` is outside any `try`).  An unknown
method leaves `items` empty. -/
def selectItems (rc : RegexCompiler) (doc : Node) (tpl : Template) :
    Except Unit (List Node) :=
  let m := dfltMethod tpl.itemSelectorMethod
  if m = "css" then
    Except.ok (docQuerySelectorAll doc (tpl.itemSelector.getD "undefined"))
  else if m = "class" then
    match tpl.itemSelector with
    | none => Except.error ()
    | some sel => Except.ok (docGetByClassName doc (replaceFirst sel '.'))
  else if m = "id" then
    match tpl.itemSelector with
    | none => Except.error ()
    | some sel =>
      match docQuerySelector doc ("#" ++ replaceFirst sel '#') with
      | some el => Except.ok [el]
      | none => Except.ok []
  else if m = "regex" then
    match tpl.itemSelector with
    | none =>
      -- `new RegExp(undefined, 'i')` does not throw: it compiles to the
      -- always-matching `/(?:)/i`, so every element of the document passes
      -- the filter.
      Except.ok (allElems doc)
    | some sel =>
      match rc sel with
      | some test =>
        Except.ok ((allElems doc).filter (fun el => test (trimString (textContent el))))
      | none => Except.error ()
  else Except.ok []

/-- The whole `page.evaluate` body: select items, then `items.forEach`
builds one record per item.  `Except.error` models an exception escaping
the evaluated closure, which rejects the handler's promise.  In the
`class` branch `items` is the HTMLCollection returned by
`document.getElementsByClassName`, which — unlike a NodeList or an array —
has no `forEach` method, so `items.forEach(...)` always throws a
TypeError there, even on an empty collection. -/
def scrapePage (rc : RegexCompiler) (tpl : Template) (doc : Node) :
    Except Unit (List Record) :=
  match selectItems rc doc tpl with
  | Except.error e => Except.error e
  | Except.ok items =>
    if dfltMethod tpl.itemSelectorMethod = "class" then Except.error ()
    else Except.ok (items.map (fun item => extractRecord rc (tpl.fields.getD []) item))

/-! The `/scrape` handler's pagination loop and template loop. -/

/-- `paginationLimit && currentPage >= paginationLimit`, after
`template.paginationLimit || null`: a zero limit is falsy and therefore no
limit at all. -/
def limitReached (lim : Option Int) (pageNo : Nat) : Bool :=
  match lim with
  | none => false
  | some l => l != 0 && decide (l ≤ (pageNo : Int))

/-- `if (nextPageExists && nextPageHref)`: a `null` or empty href ends the
traversal, otherwise the next URL is the href resolved against the current
page URL. -/
def nextFromHref (href : Option String) (curUrl : String) : Option String :=
  match href with
  | none => none
  | some h => if h = "" then none else some (resolveUrl h curUrl)

/-- The next-page check at the end of one loop iteration: requires a
`nextPage` with a truthy selector, dispatches on `nextPage.method ||
'css'`, locates the anchor document-wide (`page.$`), reads its `href`
attribute — except the regex branch, which scans every `<a>`'s trimmed
text and uses the DOM `href` property (already resolved against the
current URL, `''` when the attribute is absent).  An invalid regex throws
(`Except.error`); an unknown method finds nothing. -/
def checkNext (rc : RegexCompiler) (tpl : Template) (doc : Node) (curUrl : String) :
    Except Unit (Option String) :=
  match tpl.nextPage with
  | none => Except.ok none
  | some lk =>
    if lk.selector = "" then Except.ok none
    else
      let m := dfltMethod lk.method
      if m = "css" then
        match docQuerySelector doc lk.selector with
        | none => Except.ok none
        | some el => Except.ok (nextFromHref (getAttr el "href") curUrl)
      else if m = "class" then
        match docQuerySelector doc ("." ++ replaceFirst lk.selector '.') with
        | none => Except.ok none
        | some el => Except.ok (nextFromHref (getAttr el "href") curUrl)
      else if m = "id" then
        match docQuerySelector doc ("#" ++ replaceFirst lk.selector '#') with
        | none => Except.ok none
        | some el => Except.ok (nextFromHref (getAttr el "href") curUrl)
      else if m = "regex" then
        match rc lk.selector with
        | none => Except.error ()
        | some test =>
          match (docQuerySelectorAll doc "a").find? (fun a => test (trimString (textContent a))) with
          | none => Except.ok none
          | some a =>
            let propHref :=
              match getAttr a "href" with
              | none => ""
              | some hv => resolveUrl hv curUrl
            if propHref = "" then Except.ok none
            else Except.ok (some (resolveUrl propHref curUrl))
      else Except.ok none

/-- The `while (hasNextPage)` loop for one template.  `fetch` is
`page.goto` (`none` = navigation failure, rethrown to the handler's
`catch`).  The loop has no intrinsic termination (pagination cycles are
possible), so it takes fuel; exhausted fuel just returns what was
accumulated.  Returns the aggregated records (or the escaped exception)
together with the list of URLs navigated to, in fetch order. -/
def crawlLoop (fetch : String → Option Node) (rc : RegexCompiler) (tpl : Template) :
    Nat → String → Nat → List Record → List String →
    Except Unit (List Record) × List String
  | 0, _, _, agg, urls => (Except.ok agg, urls)
  | Nat.succ fuel, url, pageNo, agg, urls =>
    match fetch url with
    | none => (Except.error (), urls ++ [url])
    | some doc =>
      match scrapePage rc tpl doc with
      | Except.error _ => (Except.error (), urls ++ [url])
      | Except.ok batch =>
        if limitReached tpl.paginationLimit pageNo then
          (Except.ok (agg ++ batch), urls ++ [url])
        else
          match checkNext rc tpl doc url with
          | Except.error _ => (Except.error (), urls ++ [url])
          | Except.ok none => (Except.ok (agg ++ batch), urls ++ [url])
          | Except.ok (some url2) =>
            crawlLoop fetch rc tpl fuel url2 (pageNo + 1) (agg ++ batch) (urls ++ [url])

/-- The `for (let templateName in templates)` loop: each template restarts
at the caller's URL with page counter 1 and a fresh aggregate; a template
whose aggregate is non-empty is written to a CSV file *before* the next
template starts.  An exception aborts the whole loop, leaving the CSVs
already written in place.  Accumulates `(writes, navigations)`. -/
def runTemplates (fetch : String → Option Node) (rc : RegexCompiler) (fuel : Nat)
    (url : String) :
    List (String × Template) → List (String × List Record) → List String →
    Except Unit Unit × List (String × List Record) × List String
  | [], writes, navs => (Except.ok (), writes, navs)
  | (name, tpl) :: rest, writes, navs =>
    match crawlLoop fetch rc tpl fuel url 1 [] [] with
    | (Except.error _, pages) => (Except.error (), writes, navs ++ pages)
    | (Except.ok recs, pages) =>
      let writes2 := if recs.length > 0 then writes ++ [(name, recs)] else writes
      runTemplates fetch rc fuel url rest writes2 (navs ++ pages)

/-- Body of a `POST /scrape` request: `{ url, templates }`, either possibly
missing; `""` for `url` is falsy like a missing one. -/
structure ScrapeRequest where
  url : Option String
  templates : Option (List (String × Template))

/-- The handler's three outcomes: HTTP 400 (missing url/templates), 200
(`Scraping completed successfully.`) and 500 (`Scraping failed.`). -/
inductive ScrapeResponse where
  | badRequest
  | okResp
  | serverError
deriving DecidableEq

/-- The `/scrape` handler: validate presence of `url` and `templates`
(nothing else), then run every template; any exception is caught and
reported as a single 500.  Returns the response together with the CSV
writes performed and the navigations made. -/
def scrapeHandler (fetch : String → Option Node) (rc : RegexCompiler) (fuel : Nat)
    (req : ScrapeRequest) :
    ScrapeResponse × List (String × List Record) × List String :=
  match req.url, req.templates with
  | some u, some ts =>
    if u = "" then (ScrapeResponse.badRequest, [], [])
    else
      match runTemplates fetch rc fuel u ts [] [] with
      | (Except.ok _, writes, navs) => (ScrapeResponse.okResp, writes, navs)
      | (Except.error _, writes, navs) => (ScrapeResponse.serverError, writes, navs)
  | _, _ => (ScrapeResponse.badRequest, [], [])

/-- Records of one visited page, as the loop computed them: used to state
that the aggregate is the concatenation of the per-page batches. -/
def pageBatch (fetch : String → Option Node) (rc : RegexCompiler) (tpl : Template)
    (u : String) : List Record :=
  match fetch u with
  | none => []
  | some doc =>
    match scrapePage rc tpl doc with
    | Except.ok b => b
    | Except.error _ => []

/-! Concrete fixtures: a small two-page site used by the witnesses and
counterexamples. -/

/-- Regex stand-in that matches exactly the pattern string: one admissible
instantiation of the `RegexCompiler` abstraction. -/
def rcEq : RegexCompiler := fun pat => some (fun s => s == pat)

def elTitle1 : Node :=
  Node.elem "span" [("class", "t")] (NodeList.cons (Node.text " hello ") NodeList.nil)

/-- An anchor with no attributes at all: resolves but has no `data-v`. -/
def elLink1 : Node := Node.elem "a" [("class", "lnk")] NodeList.nil

def elCard1 : Node :=
  Node.elem "div" [("class", "card")]
    (NodeList.cons elTitle1 (NodeList.cons elLink1 NodeList.nil))

def elNext1 : Node :=
  Node.elem "a" [("class", "next"), ("href", "/p2")]
    (NodeList.cons (Node.text "Next") NodeList.nil)

/-- Page 1: one item card and a next link. -/
def doc1 : Node :=
  Node.elem "html" [] (NodeList.cons elCard1 (NodeList.cons elNext1 NodeList.nil))

def elTitle2 : Node :=
  Node.elem "span" [("class", "t")] (NodeList.cons (Node.text "world") NodeList.nil)

def elCard2 : Node :=
  Node.elem "div" [("class", "card")] (NodeList.cons elTitle2 NodeList.nil)

/-- Page 2: one item card, no next link. -/
def doc2 : Node := Node.elem "html" [] (NodeList.cons elCard2 NodeList.nil)

def url1 : String := "http://x.test/p1"

def url2 : String := "http://x.test/p2"

/-- Both pages resolve. -/
def fetch12 : String → Option Node := fun u =>
  if u = url1 then some doc1 else if u = url2 then some doc2 else none

/-- Only page 1 resolves: following the next link fails. -/
def fetch1only : String → Option Node := fun u =>
  if u = url1 then some doc1 else none

/-- Page 2 serves page 1's markup again: an endless pagination cycle. -/
def fetchCycle : String → Option Node := fun u =>
  if u = url1 then some doc1 else if u = url2 then some doc1 else none

def fTitle : FieldSpec := { type := "text", selector := ".t", method := "", attrName := "" }

def fLink : FieldSpec :=
  { type := "attribute", selector := ".lnk", method := "", attrName := "data-v" }

def tplNoNext : Template :=
  { itemSelector := some ".card", itemSelectorMethod := "",
    fields := some [("title", fTitle), ("link", fLink)],
    nextPage := none, paginationLimit := none }

def tplNext : Template := { tplNoNext with nextPage := some { selector := "a.next", method := "" } }

def tplLimit2 : Template := { tplNext with paginationLimit := some 2 }

def tplNoFields : Template :=
  { itemSelector := some ".card", itemSelectorMethod := "", fields := none,
    nextPage := none, paginationLimit := none }

/-- Template selecting items by ClassName: its item enumeration is
document-wide, but `items.forEach` then throws on the HTMLCollection. -/
def tplClassItems : Template :=
  { itemSelector := some ".card", itemSelectorMethod := "class",
    fields := some [("title", fTitle)], nextPage := none, paginationLimit := none }

/-- Template with no `itemSelector` and the `class` method:
`template.itemSelector.replace('.', '')` throws a TypeError. -/
def tplNoItemClass : Template :=
  { itemSelector := none, itemSelectorMethod := "class",
    fields := some [("title", fTitle)], nextPage := none, paginationLimit := none }

/-- Template with no `itemSelector` and the `regex` method:
`new RegExp(undefined, 'i')` matches everything, selecting every element. -/
def tplNoItemRegex : Template :=
  { itemSelector := none, itemSelectorMethod := "regex",
    fields := some [("title", fTitle)], nextPage := none, paginationLimit := none }

/-- Elements for the regex tie-break: a non-matching span followed by two
anchors whose trimmed text is `Next`. -/
def elSkip : Node :=
  Node.elem "span" [] (NodeList.cons (Node.text "skip") NodeList.nil)

def elNextA : Node :=
  Node.elem "a" [("id", "n1"), ("href", "/a")]
    (NodeList.cons (Node.text " Next ") NodeList.nil)

def elNextB : Node :=
  Node.elem "a" [("id", "n2"), ("href", "/b")]
    (NodeList.cons (Node.text "Next") NodeList.nil)

def docNexts : Node :=
  Node.elem "html" []
    (NodeList.cons elSkip (NodeList.cons elNextA (NodeList.cons elNextB NodeList.nil)))

/-- Template with no `itemSelector`: the default `css` branch queries for
the literal tag `undefined`. -/
def tplNoItem : Template :=
  { itemSelector := none, itemSelectorMethod := "",
    fields := some [("title", fTitle)], nextPage := none, paginationLimit := none }

/-! General lemmas. -/

/-- `find?` returns the first list entry satisfying the predicate, no
matter how many later entries also satisfy it. -/
theorem find?_eq_of_first {α : Type} (p : α → Bool) :
    ∀ (l : List α) (i : Nat) (hi : i < l.length),
      p (l.get ⟨i, hi⟩) = true →
      (∀ j (hj : j < i), p (l.get ⟨j, Nat.lt_trans hj hi⟩) = false) →
      l.find? p = some (l.get ⟨i, hi⟩) := by
  intro l
  induction l with
  | nil => intro i hi; exact absurd hi (Nat.not_lt_zero i)
  | cons a t ih =>
    intro i hi hp hb
    cases i with
    | zero =>
      simp only [List.get] at hp
      simp [List.find?_cons_of_pos _ hp]
    | succ i' =>
      have ha : p a = false := hb 0 (Nat.succ_pos i')
      have ht := ih i' (Nat.lt_of_succ_lt_succ hi) hp
        (fun j hj => hb (j + 1) (Nat.succ_lt_succ hj))
      rw [List.find?_cons_of_neg _ (by simp [ha])]
      exact ht

/-- Updating `nextPage` leaves extraction untouched: the evaluated closure
reads only `itemSelector`, `itemSelectorMethod` and `fields`. -/
theorem scrapePage_nextPage (rc : RegexCompiler) (np : Option LinkSpec)
    (tpl : Template) (doc : Node) :
    scrapePage rc { tpl with nextPage := np } doc = scrapePage rc tpl doc := by
  cases tpl
  rfl

/-- Updating `nextPage` leaves the pagination limit untouched. -/
theorem paginationLimit_nextPage (np : Option LinkSpec) (tpl : Template) :
    (Template.nextPage { tpl with nextPage := np }).isSome = np.isSome
      ∧ { tpl with nextPage := np }.paginationLimit = tpl.paginationLimit := by
  cases tpl
  cases np <;> exact ⟨rfl, rfl⟩

/-- A positive limit not yet reached bounds the page counter strictly. -/
theorem limitReached_false_lt {L : Int} {p : Nat} (hpos : 0 < L)
    (h : limitReached (some L) p = false) : (p : Int) < L := by
  simp only [limitReached, Bool.and_eq_false_imp, bne_iff_ne, ne_eq,
    decide_eq_false_iff_not, not_le] at h
  exact h (by omega)

/-- A positive limit at or below the counter is reached. -/
theorem limitReached_true_of_le {L : Int} {p : Nat} (hpos : 0 < L)
    (h : L ≤ (p : Int)) : limitReached (some L) p = true := by
  simp only [limitReached, Bool.and_eq_true, bne_iff_ne, ne_eq,
    decide_eq_true_eq]
  exact ⟨by omega, h⟩

/-! Claim C1. -/

/-- C1 counterexample: on a node that resolves but lacks the named
attribute, `extractAttribute` returns `el.getAttribute(attribute)`, which
is `null` (`none`) — not `""` as the claim states. -/
theorem c1_counterexample :
    resolveField rcEq elCard1 ".lnk" "css" = some elLink1
    ∧ extractAttribute rcEq elCard1 ".lnk" "data-v" "css" = none
    ∧ extractAttribute rcEq elCard1 ".lnk" "data-v" "css" ≠ some "" :=
  ⟨rfl, rfl, by decide⟩

/-- C1 (amended): field extraction is total and raises nothing; an
unresolved selector yields `""` for Text and `""` for Attribute, but a
resolved node lacking the named attribute yields `null` (`none`), not
`""`: the Attribute value is exactly `getAttribute`'s result. -/
theorem c1_field_totality (rc : RegexCompiler) (root : Node) (sel attrN m : String) :
    (resolveField rc root sel m = none →
      extractText rc root sel m = "" ∧ extractAttribute rc root sel attrN m = some "")
    ∧ (∀ el, resolveField rc root sel m = some el →
      extractText rc root sel m = trimString (textContent el)
        ∧ extractAttribute rc root sel attrN m = getAttr el attrN) := by
  constructor
  · intro h
    constructor
    · simp [extractText, h]
    · simp [extractAttribute, h]
  · intro el h
    constructor
    · simp [extractText, h]
    · simp [extractAttribute, h]

/-- C1 witness: both characterizations at concrete inputs: an unresolved
selector gives `""`/`""`, a resolved node gives its trimmed text and its
(here absent, hence `null`) attribute. -/
theorem c1_field_totality_witness :
    (extractText rcEq elCard1 ".zzz" "css" = ""
      ∧ extractAttribute rcEq elCard1 ".zzz" "data-v" "css" = some "")
    ∧ (extractText rcEq elCard1 ".lnk" "css" = ""
      ∧ extractAttribute rcEq elCard1 ".lnk" "data-v" "css" = getAttr elLink1 "data-v") :=
  ⟨(c1_field_totality rcEq elCard1 ".zzz" "data-v" "css").1 rfl,
   (c1_field_totality rcEq elCard1 ".lnk" "data-v" "css").2 elLink1 rfl⟩

/-! Claim C2. -/

/-- C2 counterexample: the record extracted from page 1 carries the value
`null` (`none`) under the key `link` — an Attribute field whose node
resolved without the attribute — so not every key holds a string. -/
theorem c2_counterexample :
    scrapePage rcEq tplNoNext doc1
      = Except.ok [[("title", some "hello"), ("link", none)]]
    ∧ extractAttribute rcEq elCard1 ".lnk" "data-v" "css" = none
    ∧ extractAttribute rcEq elCard1 ".lnk" "data-v" "css" ≠ some "" :=
  ⟨rfl, rfl, by decide⟩

/-- C2 (amended): every record of a page batch has exactly the declared
field names, in declaration order; Text fields and fields of unknown kind
always carry a string, while an Attribute field carries `getAttribute`'s
result, which is `null` when the resolved node lacks the attribute. -/
theorem c2_record_shape (rc : RegexCompiler) (tpl : Template) (doc : Node)
    (fs : List (String × FieldSpec)) (hfs : tpl.fields = some fs) :
    (∀ batch, scrapePage rc tpl doc = Except.ok batch →
      ∀ r, r ∈ batch → r.map Prod.fst = fs.map Prod.fst)
    ∧ (∀ item nf, nf ∈ fs → nf.2.type = "text" →
      fieldValue rc item nf.2
        = some (extractText rc item nf.2.selector (dfltMethod nf.2.method)))
    ∧ (∀ item nf, nf ∈ fs → nf.2.type ≠ "text" → nf.2.type ≠ "attribute" →
      fieldValue rc item nf.2 = some "") := by
  refine ⟨?_, ?_, ?_⟩
  · intro batch hb r hr
    unfold scrapePage at hb
    cases hsel : selectItems rc doc tpl with
    | error e => rw [hsel] at hb; exact Except.noConfusion hb
    | ok items =>
      rw [hsel] at hb
      simp only at hb
      by_cases hcl : dfltMethod tpl.itemSelectorMethod = "class"
      · rw [if_pos hcl] at hb
        exact absurd hb (by simp)
      · rw [if_neg hcl] at hb
        have hb' : items.map (fun item => extractRecord rc (tpl.fields.getD []) item) = batch :=
          Except.ok.inj hb
        rw [← hb'] at hr
        obtain ⟨item, _, hitem⟩ := List.mem_map.mp hr
        rw [← hitem, hfs]
        simp [extractRecord, List.map_map]
  · intro item nf _ ht
    simp [fieldValue, ht]
  · intro item nf _ h1 h2
    simp [fieldValue, h1, h2]

/-- C2 witness: on page 1's batch the record keys are exactly
`title, link` in declared order, and a Text field yields a string. -/
theorem c2_record_shape_witness :
    ([("title", some "hello"), ("link", (none : Option String))].map Prod.fst
      = [("title", fTitle), ("link", fLink)].map Prod.fst)
    ∧ fieldValue rcEq elCard1 fTitle = some (extractText rcEq elCard1 ".t" "css") :=
  ⟨(c2_record_shape rcEq tplNoNext doc1 [("title", fTitle), ("link", fLink)] rfl).1
      [[("title", some "hello"), ("link", none)]] rfl
      [("title", some "hello"), ("link", none)] (List.mem_singleton.mpr rfl),
   (c2_record_shape rcEq tplNoNext doc1 [("title", fTitle), ("link", fLink)] rfl).2.1
      elCard1 ("title", fTitle) (List.mem_cons_self _ _) rfl⟩

/-! Claim C3. -/

/-- With a positive limit `L`, one run of the loop navigates at most
`1 + (L - pageNo)` further pages. -/
theorem crawl_urls_len_bound (fetch : String → Option Node) (rc : RegexCompiler)
    (tpl : Template) (L : Int) (hL : tpl.paginationLimit = some L) (hpos : 0 < L) :
    ∀ (fuel : Nat) (url : String) (pageNo : Nat) (agg : List Record) (urls : List String),
      ((crawlLoop fetch rc tpl fuel url pageNo agg urls).2).length
        ≤ urls.length + 1 + (L.toNat - pageNo) := by
  intro fuel
  induction fuel with
  | zero =>
    intro url pageNo agg urls
    simp only [crawlLoop]
    omega
  | succ n ih =>
    intro url pageNo agg urls
    simp only [crawlLoop]
    split
    · simp only [List.length_append, List.length_singleton]; omega
    · split
      · simp only [List.length_append, List.length_singleton]; omega
      · split
        · simp only [List.length_append, List.length_singleton]; omega
        · split
          · simp only [List.length_append, List.length_singleton]; omega
          · simp only [List.length_append, List.length_singleton]; omega
          · rename_i x1 doc hf x2 batch hs hlim x3 url2 hn
            have hb := ih url2 (pageNo + 1) (agg ++ batch) (urls ++ [url])
            have hlim2 : limitReached tpl.paginationLimit pageNo = false :=
              Bool.eq_false_iff.mpr hlim
            have hlt : (pageNo : Int) < L := by
              rw [hL] at hlim2
              exact limitReached_false_lt hpos hlim2
            simp only [List.length_append, List.length_singleton] at hb ⊢
            omega

/-- C3: with `paginationLimit` a positive integer `L`, (a) any run of the
loop from page 1 navigates at most `L` pages, for every fuel, fetch
behavior and template; and (b) once the counter has reached the limit the
iteration returns right after aggregating the extracted batch — whatever
`nextPage` is set to, so independently of any next-link check. -/
theorem c3_pagination_limit (fetch : String → Option Node) (rc : RegexCompiler)
    (tpl : Template) (L : Int) (hL : tpl.paginationLimit = some L) (hpos : 0 < L) :
    (∀ (fuel : Nat) (url : String),
      ((crawlLoop fetch rc tpl fuel url 1 [] []).2).length ≤ L.toNat)
    ∧ (∀ (np : Option LinkSpec) (fuel : Nat) (url : String) (pageNo : Nat)
        (agg : List Record) (urls : List String) (doc : Node) (batch : List Record),
      fetch url = some doc →
      scrapePage rc tpl doc = Except.ok batch →
      L ≤ (pageNo : Int) →
      crawlLoop fetch rc { tpl with nextPage := np } (fuel + 1) url pageNo agg urls
        = (Except.ok (agg ++ batch), urls ++ [url])) := by
  constructor
  · intro fuel url
    have h := crawl_urls_len_bound fetch rc tpl L hL hpos fuel url 1 [] []
    simp only [List.length_nil] at h
    omega
  · intro np fuel url pageNo agg urls doc batch hf hs hle
    have hsp : scrapePage rc { tpl with nextPage := np } doc = Except.ok batch := by
      rw [scrapePage_nextPage]; exact hs
    have hpl : { tpl with nextPage := np }.paginationLimit = some L := by
      rw [(paginationLimit_nextPage np tpl).2]; exact hL
    have hlim : limitReached { tpl with nextPage := np }.paginationLimit pageNo = true := by
      rw [hpl]; exact limitReached_true_of_le hpos hle
    simp only [crawlLoop, hf, hsp, hlim, if_true]

/-- C3 witness: on a cyclic two-page site with limit 2, at most two pages
are navigated, and with the counter at 2 the loop stops right after
extraction even with the next link re-pointed (here: removed). -/
theorem c3_pagination_limit_witness :
    ((crawlLoop fetchCycle rcEq tplLimit2 5 url1 1 [] []).2).length ≤ (2 : Int).toNat
    ∧ crawlLoop fetchCycle rcEq { tplLimit2 with nextPage := none } 3 url2 2
        [] [url1]
      = (Except.ok ([] ++ [[("title", some "hello"), ("link", none)]]), [url1] ++ [url2]) :=
  ⟨(c3_pagination_limit fetchCycle rcEq tplLimit2 2 rfl (by decide)).1 5 url1,
   (c3_pagination_limit fetchCycle rcEq tplLimit2 2 rfl (by decide)).2 none 2 url2 2
      [] [url1] doc1 [[("title", some "hello"), ("link", none)]]
      rfl rfl (by decide)⟩

/-! Claim C4. -/

/-- C4: at the end of an iteration below the limit, the traversal ends
after the current page when `nextPage` is absent or the next-link check
resolves nothing; when it yields a URL the loop continues there with the
counter incremented.  For the `css` method the check itself returns no URL
exactly when the selector matches no node or the node's `href` is `null`
or empty, and otherwise the found href resolved against the current page
URL. -/
theorem c4_next_link_check (fetch : String → Option Node) (rc : RegexCompiler)
    (tpl : Template) (fuel : Nat) (url : String) (pageNo : Nat)
    (agg : List Record) (urls : List String) (doc : Node) (batch : List Record)
    (hf : fetch url = some doc) (hs : scrapePage rc tpl doc = Except.ok batch)
    (hlim : limitReached tpl.paginationLimit pageNo = false) :
    (tpl.nextPage = none →
      crawlLoop fetch rc tpl (fuel + 1) url pageNo agg urls
        = (Except.ok (agg ++ batch), urls ++ [url]))
    ∧ (checkNext rc tpl doc url = Except.ok none →
      crawlLoop fetch rc tpl (fuel + 1) url pageNo agg urls
        = (Except.ok (agg ++ batch), urls ++ [url]))
    ∧ (∀ url2, checkNext rc tpl doc url = Except.ok (some url2) →
      crawlLoop fetch rc tpl (fuel + 1) url pageNo agg urls
        = crawlLoop fetch rc tpl fuel url2 (pageNo + 1) (agg ++ batch) (urls ++ [url]))
    ∧ (∀ lk, tpl.nextPage = some lk → lk.selector ≠ "" → dfltMethod lk.method = "css" →
      (docQuerySelector doc lk.selector = none →
        checkNext rc tpl doc url = Except.ok none)
      ∧ (∀ el, docQuerySelector doc lk.selector = some el →
        (getAttr el "href" = none → checkNext rc tpl doc url = Except.ok none)
        ∧ (getAttr el "href" = some "" → checkNext rc tpl doc url = Except.ok none)
        ∧ (∀ h, getAttr el "href" = some h → h ≠ "" →
          checkNext rc tpl doc url = Except.ok (some (resolveUrl h url))))) := by
  have step : ∀ r, checkNext rc tpl doc url = r →
      crawlLoop fetch rc tpl (fuel + 1) url pageNo agg urls
        = (match r with
          | Except.error _ => (Except.error (), urls ++ [url])
          | Except.ok none => (Except.ok (agg ++ batch), urls ++ [url])
          | Except.ok (some url2) =>
            crawlLoop fetch rc tpl fuel url2 (pageNo + 1) (agg ++ batch) (urls ++ [url])) := by
    intro r hr
    simp only [crawlLoop, hf, hs, hlim, Bool.false_eq_true, if_false, hr]
  refine ⟨?_, ?_, ?_, ?_⟩
  · intro hnp
    have hcn : checkNext rc tpl doc url = Except.ok none := by
      simp [checkNext, hnp]
    exact step (Except.ok none) hcn
  · intro hcn
    exact step (Except.ok none) hcn
  · intro url2 hcn
    exact step (Except.ok (some url2)) hcn
  · intro lk hlk hsel hm
    have hbody : checkNext rc tpl doc url
        = (match docQuerySelector doc lk.selector with
          | none => Except.ok none
          | some el => Except.ok (nextFromHref (getAttr el "href") url)) := by
      simp [checkNext, hlk, hsel, hm]
    refine ⟨?_, ?_⟩
    · intro hq
      rw [hbody, hq]
    · intro el hq
      refine ⟨?_, ?_, ?_⟩
      · intro ha
        rw [hbody, hq]
        simp [nextFromHref, ha]
      · intro ha
        rw [hbody, hq]
        simp [nextFromHref, ha]
      · intro h ha hne
        rw [hbody, hq]
        simp [nextFromHref, ha, hne]

/-- C4 witness: on page 2 (no next anchor) the loop stops after that page;
on page 1 the `css` check finds `a.next` with href `/p2` and the loop
would continue at the resolved absolute URL with the counter bumped. -/
theorem c4_next_link_check_witness :
    (crawlLoop fetch12 rcEq tplNext 3 url2 2 [] [url1]
      = (Except.ok ([] ++ [[("title", some "world"), ("link", some "")]]), [url1] ++ [url2]))
    ∧ checkNext rcEq tplNext doc1 url1
      = Except.ok (some (resolveUrl "/p2" url1)) :=
  ⟨((c4_next_link_check fetch12 rcEq tplNext 2 url2 2 [] [url1] doc2
      [[("title", some "world"), ("link", some "")]] rfl rfl rfl).2.1 (by decide)),
   (((c4_next_link_check fetch12 rcEq tplNext 2 url1 1 [] [] doc1
      [[("title", some "hello"), ("link", none)]] rfl rfl rfl).2.2.2
        { selector := "a.next", method := "" } rfl (by decide) rfl).2 elNext1 rfl).2.2
        "/p2" rfl (by decide)⟩

/-! Claim C5. -/

/-- C5 (code bug): the claimed Collection-mode ClassName behavior is what
line 224 enumerates — `document.getElementsByClassName` is document-wide,
as the first conjunct shows — but that call returns an HTMLCollection,
which has no `forEach`: line 237 `items.forEach(...)` throws a TypeError
for every ClassName-method item selection, so the evaluate promise
rejects and the whole request answers 500 after navigating.  The
document-wide Collection-mode selection the claim (and spec) describe is
therefore never observable. -/
theorem c5_classname_forEach_bug :
    selectItems rcEq doc1 tplClassItems = Except.ok (docGetByClassName doc1 "card")
    ∧ docGetByClassName doc1 "card" = [elCard1]
    ∧ scrapePage rcEq tplClassItems doc1 = Except.error ()
    ∧ (scrapeHandler fetch1only rcEq 5
      ⟨some url1, some [("t", tplClassItems)]⟩).1 = ScrapeResponse.serverError
    ∧ (scrapeHandler fetch1only rcEq 5
      ⟨some url1, some [("t", tplClassItems)]⟩).2.2 = [url1] :=
  ⟨rfl, rfl, rfl, by decide, by decide⟩

/-! Claim C6. -/

/-- C6 counterexample: template `t1` completes and its CSV is written;
then template `t2` hits a navigation failure on page 2.  The request does
fail with a single 500, but `t1`'s persisted results remain — contradicting
"no results are persisted for any template of that request". -/
theorem c6_counterexample :
    (scrapeHandler fetch1only rcEq 5
      ⟨some url1, some [("t1", tplNoNext), ("t2", tplNext)]⟩).1
      = ScrapeResponse.serverError
    ∧ (scrapeHandler fetch1only rcEq 5
      ⟨some url1, some [("t1", tplNoNext), ("t2", tplNext)]⟩).2.1
      = [("t1", [[("title", some "hello"), ("link", none)]])] :=
  ⟨by decide, by decide⟩

/-- C6 (amended): a navigation failure while template N is being crawled
aborts the template loop right there: the overall status is the error, no
write is added for template N or any later template (the writes are
exactly those accumulated before N), and the handler reports the single
caller-visible 500 — but CSV files of templates that completed before N
have already been written and stay persisted. -/
theorem c6_navigation_failure (fetch : String → Option Node) (rc : RegexCompiler)
    (fuel : Nat) (url name : String) (tpl : Template)
    (post : List (String × Template)) (writes : List (String × List Record))
    (navs : List String)
    (hfail : (crawlLoop fetch rc tpl fuel url 1 [] []).1 = Except.error ()) :
    (runTemplates fetch rc fuel url ((name, tpl) :: post) writes navs).1
      = Except.error ()
    ∧ (runTemplates fetch rc fuel url ((name, tpl) :: post) writes navs).2.1
      = writes
    ∧ (∀ (req : ScrapeRequest) (u : String) (ts : List (String × Template)),
      req.url = some u → u ≠ "" → req.templates = some ts →
      (runTemplates fetch rc fuel u ts [] []).1 = Except.error () →
      (scrapeHandler fetch rc fuel req).1 = ScrapeResponse.serverError) := by
  have hrun : ∀ r : Except Unit (List Record) × List String,
      crawlLoop fetch rc tpl fuel url 1 [] [] = r →
      r.1 = Except.error () →
      runTemplates fetch rc fuel url ((name, tpl) :: post) writes navs
        = (Except.error (), writes, navs ++ r.2) := by
    intro r hr h1
    obtain ⟨st, pages⟩ := r
    simp only at h1
    rw [h1] at hr
    simp only [runTemplates, hr]
  refine ⟨?_, ?_, ?_⟩
  · rw [(hrun _ rfl hfail)]
  · rw [(hrun _ rfl hfail)]
  · intro req u ts hu hune hts hterr
    cases req with
    | mk ru rt =>
      simp only at hu hts
      simp only [scrapeHandler, hu, hts, if_neg hune]
      cases hrt : runTemplates fetch rc fuel u ts [] [] with
      | mk st rest =>
        rw [hrt] at hterr
        simp only at hterr
        rw [hterr]

/-- C6 witness: the amended statement at the two-template request — the
loop errors on `t2`, the accumulated write of `t1` survives, and the
handler answers 500. -/
theorem c6_navigation_failure_witness :
    (runTemplates fetch1only rcEq 5 url1 [("t2", tplNext)]
      [("t1", [[("title", some "hello"), ("link", none)]])] [url1]).1
      = Except.error ()
    ∧ (runTemplates fetch1only rcEq 5 url1 [("t2", tplNext)]
      [("t1", [[("title", some "hello"), ("link", none)]])] [url1]).2.1
      = [("t1", [[("title", some "hello"), ("link", none)]])]
    ∧ (scrapeHandler fetch1only rcEq 5
      ⟨some url1, some [("t1", tplNoNext), ("t2", tplNext)]⟩).1
      = ScrapeResponse.serverError :=
  ⟨(c6_navigation_failure fetch1only rcEq 5 url1 "t2" tplNext []
      [("t1", [[("title", some "hello"), ("link", none)]])] [url1] (by decide)).1,
   (c6_navigation_failure fetch1only rcEq 5 url1 "t2" tplNext []
      [("t1", [[("title", some "hello"), ("link", none)]])] [url1] (by decide)).2.1,
   (c6_navigation_failure fetch1only rcEq 5 url1 "t2" tplNext []
      [("t1", [[("title", some "hello"), ("link", none)]])] [url1] (by decide)).2.2
      ⟨some url1, some [("t1", tplNoNext), ("t2", tplNext)]⟩ url1
      [("t1", tplNoNext), ("t2", tplNext)] rfl (by decide) rfl (by decide)⟩

/-! Claim C7. -/

/-- C7 counterexample: requests whose only template lacks `fields` or
`itemSelector` are never rejected up front — navigation occurs in every
case.  With the default css method (and with regex, which selects every
element) the crawl even completes with 200; with the class method the
failure is the generic 500 of the outer catch, the same outcome a
NavigationFailure has, not a distinct validation error. -/
theorem c7_counterexample :
    (scrapeHandler fetch1only rcEq 5 ⟨some url1, some [("t", tplNoFields)]⟩).1
      = ScrapeResponse.okResp
    ∧ (scrapeHandler fetch1only rcEq 5 ⟨some url1, some [("t", tplNoFields)]⟩).2.2
      = [url1]
    ∧ (scrapeHandler fetch1only rcEq 5 ⟨some url1, some [("t", tplNoItem)]⟩).1
      = ScrapeResponse.okResp
    ∧ (scrapeHandler fetch1only rcEq 5 ⟨some url1, some [("t", tplNoItem)]⟩).2.2
      = [url1]
    ∧ (scrapeHandler fetch1only rcEq 5 ⟨some url1, some [("t", tplNoItemClass)]⟩).1
      = ScrapeResponse.serverError
    ∧ (scrapeHandler fetch1only rcEq 5 ⟨some url1, some [("t", tplNoItemClass)]⟩).2.2
      = [url1]
    ∧ (scrapeHandler fetch1only rcEq 5 ⟨some url1, some [("t", tplNoItemRegex)]⟩).1
      = ScrapeResponse.okResp
    ∧ (scrapeHandler fetch1only rcEq 5 ⟨some url1, some [("t", tplNoItemRegex)]⟩).2.2
      = [url1] :=
  ⟨by decide, by decide, by decide, by decide, by decide, by decide, by decide, by decide⟩

/-- C7 (amended): the only up-front validation is request-level — a
request with a missing (or empty) `url` or missing `templates` is
rejected with a 400 before any navigation or write, an outcome distinct
from the 500 of a NavigationFailure.  A template lacking `itemSelector`
or `fields` is never rejected before navigation; after navigating, the
outcome depends on the method: the default css queries for the literal
tag `undefined` (normally no matches), the class and id methods throw a
TypeError on `undefined.replace` (generic 500, not a distinct error), and
the regex method selects every element of the document. -/
theorem c7_request_validation (fetch : String → Option Node) (rc : RegexCompiler)
    (fuel : Nat) (req : ScrapeRequest)
    (h : req.url = none ∨ req.templates = none ∨ req.url = some "") :
    scrapeHandler fetch rc fuel req = (ScrapeResponse.badRequest, [], [])
    ∧ ScrapeResponse.badRequest ≠ ScrapeResponse.serverError
    ∧ (∀ (doc : Node) (tpl : Template), Template.itemSelector tpl = none →
      dfltMethod (Template.itemSelectorMethod tpl) = "css" →
      selectItems rc doc tpl = Except.ok (docQuerySelectorAll doc "undefined"))
    ∧ (∀ (doc : Node) (tpl : Template), Template.itemSelector tpl = none →
      dfltMethod (Template.itemSelectorMethod tpl) = "class" →
      scrapePage rc tpl doc = Except.error ())
    ∧ (∀ (doc : Node) (tpl : Template), Template.itemSelector tpl = none →
      dfltMethod (Template.itemSelectorMethod tpl) = "id" →
      scrapePage rc tpl doc = Except.error ())
    ∧ (∀ (doc : Node) (tpl : Template), Template.itemSelector tpl = none →
      dfltMethod (Template.itemSelectorMethod tpl) = "regex" →
      selectItems rc doc tpl = Except.ok (allElems doc)) := by
  refine ⟨?_, by decide, ?_, ?_, ?_, ?_⟩
  · cases req with
    | mk ru rt =>
      rcases h with h | h | h
      · simp only at h
        rw [h]
        cases rt <;> rfl
      · simp only at h
        rw [h]
        cases ru <;> rfl
      · simp only at h
        rw [h]
        cases rt with
        | none => rfl
        | some ts => simp [scrapeHandler]
  · intro doc tpl hsel hm
    simp [selectItems, hsel, hm]
  · intro doc tpl hsel hm
    simp [scrapePage, selectItems, hsel, hm]
  · intro doc tpl hsel hm
    simp [scrapePage, selectItems, hsel, hm]
  · intro doc tpl hsel hm
    simp [selectItems, hsel, hm]

/-- C7 witness: a request with no `templates` is answered 400 with no
navigation and no write; a missing `itemSelector` throws under the class
method and selects every element under the regex method. -/
theorem c7_request_validation_witness :
    scrapeHandler fetch1only rcEq 5 ⟨some url1, none⟩
      = (ScrapeResponse.badRequest, [], [])
    ∧ scrapePage rcEq tplNoItemClass doc1 = Except.error ()
    ∧ selectItems rcEq doc1 tplNoItemRegex = Except.ok (allElems doc1) :=
  ⟨(c7_request_validation fetch1only rcEq 5 ⟨some url1, none⟩
      (Or.inr (Or.inl rfl))).1,
   (c7_request_validation fetch1only rcEq 5 ⟨some url1, none⟩
      (Or.inr (Or.inl rfl))).2.2.2.1 doc1 tplNoItemClass rfl rfl,
   (c7_request_validation fetch1only rcEq 5 ⟨some url1, none⟩
      (Or.inr (Or.inl rfl))).2.2.2.2.2 doc1 tplNoItemRegex rfl rfl⟩

/-! Claim C8. -/

/-- C8: Single-mode regex resolution scans the element descendants of the
root in document order (`querySelectorAll('*')` + `find`) testing each
trimmed text content: the first matcher wins, however many later elements
also match, and with no matcher at all nothing resolves. -/
theorem c8_regex_first (rc : RegexCompiler) (pat : String) (test : String → Bool)
    (hrc : rc pat = some test) (root : Node) :
    (∀ (i : Nat) (hi : i < (elemDescendants root).length),
      test (trimString (textContent ((elemDescendants root).get ⟨i, hi⟩))) = true →
      (∀ (j : Nat) (hj : j < i),
        test (trimString (textContent
          ((elemDescendants root).get ⟨j, Nat.lt_trans hj hi⟩))) = false) →
      resolveField rc root pat "regex" = some ((elemDescendants root).get ⟨i, hi⟩))
    ∧ ((∀ e, e ∈ elemDescendants root → test (trimString (textContent e)) = false) →
      resolveField rc root pat "regex" = none) := by
  have hres : resolveField rc root pat "regex"
      = (elemDescendants root).find? (fun el => test (trimString (textContent el))) := by
    simp [resolveField, hrc]
  constructor
  · intro i hi hp hb
    rw [hres]
    exact find?_eq_of_first _ (elemDescendants root) i hi hp hb
  · intro hall
    rw [hres]
    exact List.find?_eq_none.mpr (fun e he => by simp [hall e he])

/-- C8 witness: in a page with two anchors whose trimmed text is `Next`,
regex resolution picks the first in document order; a pattern matching
nothing resolves nothing. -/
theorem c8_regex_first_witness :
    resolveField rcEq docNexts "Next" "regex"
      = some ((elemDescendants docNexts).get ⟨1, by decide⟩)
    ∧ resolveField rcEq docNexts "Absent" "regex" = none :=
  ⟨(c8_regex_first rcEq "Next" (fun s => s == "Next") rfl docNexts).1 1
      (by decide) (by decide) (by decide),
   (c8_regex_first rcEq "Absent" (fun s => s == "Absent") rfl docNexts).2
      (by decide)⟩

/-! Claim C9. -/

/-- Generalized aggregation invariant of the pagination loop: a successful
run extends the navigated URLs by some new page sequence and the aggregate
by exactly the concatenation of those pages' batches. -/
theorem crawl_agg_general (fetch : String → Option Node) (rc : RegexCompiler)
    (tpl : Template) :
    ∀ (fuel : Nat) (url : String) (pageNo : Nat) (agg : List Record)
      (urls : List String) (recs : List Record) (urlsF : List String),
      crawlLoop fetch rc tpl fuel url pageNo agg urls = (Except.ok recs, urlsF) →
      ∃ nw, urlsF = urls ++ nw
        ∧ recs = agg ++ (nw.map (pageBatch fetch rc tpl)).flatten := by
  intro fuel
  induction fuel with
  | zero =>
    intro url pageNo agg urls recs urlsF h
    simp only [crawlLoop, Prod.mk.injEq] at h
    exact ⟨[], by simp [← h.2], by simp [← Except.ok.inj h.1]⟩
  | succ n ih =>
    intro url pageNo agg urls recs urlsF h
    simp only [crawlLoop] at h
    cases hf : fetch url with
    | none => rw [hf] at h; simp at h
    | some doc =>
      rw [hf] at h
      simp only at h
      cases hs : scrapePage rc tpl doc with
      | error e => rw [hs] at h; simp at h
      | ok batch =>
        rw [hs] at h
        simp only at h
        have hpb : pageBatch fetch rc tpl url = batch := by
          simp [pageBatch, hf, hs]
        cases hlim : limitReached tpl.paginationLimit pageNo with
        | true =>
          rw [hlim] at h
          simp only [if_true, Prod.mk.injEq] at h
          refine ⟨[url], by simp [← h.2], ?_⟩
          rw [← Except.ok.inj h.1]
          simp [hpb]
        | false =>
          rw [hlim] at h
          simp only [Bool.false_eq_true, if_false] at h
          cases hn : checkNext rc tpl doc url with
          | error e => rw [hn] at h; simp at h
          | ok o =>
            rw [hn] at h
            cases o with
            | none =>
              simp only [Prod.mk.injEq] at h
              refine ⟨[url], by simp [← h.2], ?_⟩
              rw [← Except.ok.inj h.1]
              simp [hpb]
            | some url2 =>
              simp only at h
              obtain ⟨nw, hu, hr⟩ := ih url2 (pageNo + 1) (agg ++ batch) (urls ++ [url]) recs urlsF h
              refine ⟨url :: nw, by simp [hu], ?_⟩
              rw [hr]
              simp [hpb]

/-- C9: a completed crawl's result is exactly the concatenation of the
per-page batches of the pages navigated, in fetch order, and its length is
the sum of the batch lengths — no dedup, no transformation. -/
theorem c9_aggregation (fetch : String → Option Node) (rc : RegexCompiler)
    (tpl : Template) (fuel : Nat) (url : String) (recs : List Record)
    (urls : List String)
    (h : crawlLoop fetch rc tpl fuel url 1 [] [] = (Except.ok recs, urls)) :
    recs = (urls.map (pageBatch fetch rc tpl)).flatten
    ∧ recs.length = ((urls.map (pageBatch fetch rc tpl)).map List.length).sum := by
  obtain ⟨nw, hu, hr⟩ := crawl_agg_general fetch rc tpl fuel url 1 [] [] recs urls h
  simp only [List.nil_append] at hu hr
  subst hu
  constructor
  · simpa using hr
  · rw [hr]
    simp [List.length_flatten]

/-- C9 witness: the two-page crawl's result is the join of the two page
batches and its length their summed lengths. -/
theorem c9_aggregation_witness :
    ([[("title", some "hello"), ("link", none)],
      [("title", some "world"), ("link", some "")]] : List Record)
      = ([url1, url2].map (pageBatch fetch12 rcEq tplNext)).flatten
    ∧ ([[("title", some "hello"), ("link", none)],
      [("title", some "world"), ("link", some "")]] : List Record).length
      = (([url1, url2].map (pageBatch fetch12 rcEq tplNext)).map List.length).sum :=
  c9_aggregation fetch12 rcEq tplNext 5 url1
    [[("title", some "hello"), ("link", none)],
     [("title", some "world"), ("link", some "")]] [url1, url2] (by decide)

/-! Claim C10. -/

/-- C10 counterexample: the empty string is a method string outside
`{css, class, id, regex}`, yet a field using it does *not* extract `""`:
`fieldInfo.method || 'css'` makes it fall back to the css strategy, which
here resolves a node and extracts `hello`. -/
theorem c10_counterexample :
    ¬ ("" = "css" ∨ "" = "class" ∨ "" = "id" ∨ "" = "regex")
    ∧ fTitle.method = ""
    ∧ fieldValue rcEq elCard1 fTitle = some "hello"
    ∧ fieldValue rcEq elCard1 fTitle ≠ some "" :=
  ⟨by decide, rfl, by decide, by decide⟩

/-- C10 (amended): for every *non-empty* method string outside
`{css, class, id, regex}` (the empty string is falsy and defaults to css),
resolution silently yields no node: field extraction returns `""`
(`some ""` for attribute fields and for every field value), item selection
yields no items hence an empty batch, no exception escapes, and the crawl
step completes normally. -/
theorem c10_unknown_method (rc : RegexCompiler) (m : String) (hne : m ≠ "")
    (h1 : m ≠ "css") (h2 : m ≠ "class") (h3 : m ≠ "id") (h4 : m ≠ "regex") :
    (∀ root sel, resolveField rc root sel m = none)
    ∧ (∀ root sel, extractText rc root sel m = "")
    ∧ (∀ root sel a, extractAttribute rc root sel a m = some "")
    ∧ (∀ item f, FieldSpec.method f = m → fieldValue rc item f = some "")
    ∧ (∀ doc tpl, Template.itemSelectorMethod tpl = m →
      selectItems rc doc tpl = Except.ok [])
    ∧ (∀ doc tpl, Template.itemSelectorMethod tpl = m →
      scrapePage rc tpl doc = Except.ok [])
    ∧ (∀ (fetch : String → Option Node) (tpl : Template) (fuel : Nat)
        (url : String) (pageNo : Nat) (agg : List Record) (urls : List String)
        (doc : Node),
      Template.itemSelectorMethod tpl = m → Template.nextPage tpl = none →
      fetch url = some doc →
      crawlLoop fetch rc tpl (fuel + 1) url pageNo agg urls
        = (Except.ok agg, urls ++ [url])) := by
  have hresolve : ∀ root sel, resolveField rc root sel m = none := by
    intro root sel
    simp [resolveField, h1, h2, h3, h4]
  have hsel : ∀ doc tpl, Template.itemSelectorMethod tpl = m →
      selectItems rc doc tpl = Except.ok [] := by
    intro doc tpl hm
    simp [selectItems, hm, dfltMethod, hne, h1, h2, h3, h4]
  have hsp : ∀ doc tpl, Template.itemSelectorMethod tpl = m →
      scrapePage rc tpl doc = Except.ok [] := by
    intro doc tpl hm
    have hd : dfltMethod (Template.itemSelectorMethod tpl) = m := by
      rw [hm]; simp [dfltMethod, hne]
    simp [scrapePage, hsel doc tpl hm, hd, h2]
  refine ⟨hresolve, ?_, ?_, ?_, hsel, hsp, ?_⟩
  · intro root sel
    simp [extractText, hresolve]
  · intro root sel a
    simp [extractAttribute, hresolve]
  · intro item f hm
    have hd : dfltMethod (FieldSpec.method f) = m := by
      rw [hm]; simp [dfltMethod, hne]
    by_cases ht : FieldSpec.type f = "text"
    · simp [fieldValue, ht, hd, extractText, hresolve]
    · by_cases ha : FieldSpec.type f = "attribute"
      · simp [fieldValue, ht, ha, hd, extractAttribute, hresolve]
      · simp [fieldValue, ht, ha]
  · intro fetch tpl fuel url pageNo agg urls doc hm hnp hf
    have hcn : checkNext rc tpl doc url = Except.ok none := by
      simp [checkNext, hnp]
    cases hlim : limitReached tpl.paginationLimit pageNo with
    | true =>
      simp only [crawlLoop, hf, hsp doc tpl hm, hlim, if_true, List.append_nil]
    | false =>
      simp only [crawlLoop, hf, hsp doc tpl hm, hlim, Bool.false_eq_true, if_false,
        hcn, List.append_nil]

/-- C10 witness: the unknown method `xpath` extracts `""`, selects no
items, and a one-page crawl with it finishes cleanly. -/
theorem c10_unknown_method_witness :
    extractText rcEq elCard1 ".t" "xpath" = ""
    ∧ selectItems rcEq doc1
      { itemSelector := some ".card", itemSelectorMethod := "xpath",
        fields := some [("title", fTitle)], nextPage := none,
        paginationLimit := none } = Except.ok []
    ∧ crawlLoop fetch1only rcEq
      { itemSelector := some ".card", itemSelectorMethod := "xpath",
        fields := some [("title", fTitle)], nextPage := none,
        paginationLimit := none } 4 url1 1 [] []
      = (Except.ok [], [] ++ [url1]) :=
  ⟨(c10_unknown_method rcEq "xpath" (by decide) (by decide) (by decide)
      (by decide) (by decide)).2.1 elCard1 ".t",
   (c10_unknown_method rcEq "xpath" (by decide) (by decide) (by decide)
      (by decide) (by decide)).2.2.2.2.1 doc1
      { itemSelector := some ".card", itemSelectorMethod := "xpath",
        fields := some [("title", fTitle)], nextPage := none,
        paginationLimit := none } rfl,
   (c10_unknown_method rcEq "xpath" (by decide) (by decide) (by decide)
      (by decide) (by decide)).2.2.2.2.2.2 fetch1only
      { itemSelector := some ".card", itemSelectorMethod := "xpath",
        fields := some [("title", fTitle)], nextPage := none,
        paginationLimit := none } 3 url1 1 [] [] doc1 rfl rfl rfl⟩

end Scraper